import Mathlib

/-!
Shallow embedding of the Thumbnail-Master core: the SQLite-backed store
(src/indexer.py), the normalizer and search helpers (src/parser.py) and the
export pipeline (src/exporter.py).

The store is modelled as an explicit state (`DB`): the `thumbnails` table is a
list of rows in rowid order, the `metadata` key/value table is an association
list, and the AUTOINCREMENT allocator is a counter that never decreases
(SQLite's `INSERT OR REPLACE` deletes the conflicting row and inserts a fresh
one with a fresh rowid, which is what `index_thumbnail` does below).  The
external image codec (PIL) is an oracle passed as a pure function; SQL `LIKE`
is modelled by an executable matcher with ASCII case folding and the `%` / `_`
wildcards.
-/

/-- Python truthiness of an optional string (`None` and `""` are falsy). -/
def strTruthy : Option String → Bool
  | none => false
  | some s => !s.isEmpty

/-- Python truthiness of an optional list (`None` and `[]` are falsy). -/
def listTruthy : Option (List String) → Bool
  | none => false
  | some l => !l.isEmpty

/-- `parser.ThumbnailEntry`: one parsed thumbnail entry (src/parser.py:27-46). -/
structure ThumbnailEntry where
  cache_file : String
  cache_key : String
  data : List Nat
  data_size : Nat
  width : Option Nat := none
  height : Option Nat := none
  hash : Option String := none
  cache_size : Option String := none
  entry_hash : Option String := none
  extension : Option String := none
  data_checksum : Option String := none
  header_checksum : Option String := none
  image_format : Option String := none
  image_mode : Option String := none
  last_modified : Option String := none
  flags : Option Int := none
deriving DecidableEq

/-- One row of the `thumbnails` table (src/indexer.py:50-74). -/
structure DbRecord where
  id : Nat
  cache_file : String
  cache_key : String
  cache_size : Option String
  width : Option Nat
  height : Option Nat
  data_size : Nat
  hash : Option String
  data : List Nat
  entry_hash : Option String
  extension : Option String
  data_checksum : Option String
  header_checksum : Option String
  image_format : Option String
  image_mode : Option String
  last_modified : Option String
  flags : Option Int
  indexed_at : String
deriving DecidableEq

/-- The persistent state owned by `ThumbnailDatabase`: the `thumbnails` table in
rowid order, the `metadata` table, and the AUTOINCREMENT counter. -/
structure DB where
  records : List DbRecord
  metadata : List (String × String)
  nextId : Nat
deriving DecidableEq

/-- A freshly initialised database (empty tables, rowids start at 1). -/
def emptyDB : DB := { records := [], metadata := [], nextId := 1 }

/-- The `UNIQUE(cache_file, cache_key)` conflict predicate. -/
def sameKey (file key : String) (r : DbRecord) : Bool :=
  r.cache_file == file && r.cache_key == key

/-- The row inserted for an entry by `index_thumbnail` (id from the
AUTOINCREMENT allocator, `indexed_at` from `DEFAULT CURRENT_TIMESTAMP`). -/
def recordOfEntry (newId : Nat) (now : String) (e : ThumbnailEntry) : DbRecord :=
  { id := newId
    cache_file := e.cache_file
    cache_key := e.cache_key
    cache_size := e.cache_size
    width := e.width
    height := e.height
    data_size := e.data_size
    hash := e.hash
    data := e.data
    entry_hash := e.entry_hash
    extension := e.extension
    data_checksum := e.data_checksum
    header_checksum := e.header_checksum
    image_format := e.image_format
    image_mode := e.image_mode
    last_modified := e.last_modified
    flags := e.flags
    indexed_at := now }

/-- `ThumbnailDatabase.index_thumbnail` (src/indexer.py:153-184): `INSERT OR
REPLACE` deletes any row conflicting on `(cache_file, cache_key)` and inserts a
fresh row with a fresh AUTOINCREMENT rowid; returns `cursor.lastrowid`. -/
def index_thumbnail (now : String) (e : ThumbnailEntry) (db : DB) : DB × Nat :=
  let kept := db.records.filter (fun r => !sameKey e.cache_file e.cache_key r)
  ({ records := kept ++ [recordOfEntry db.nextId now e]
     metadata := db.metadata
     nextId := db.nextId + 1 }, db.nextId)

/-- `ThumbnailDatabase.clear_index` (src/indexer.py:135-151): with a truthy
list, `DELETE FROM thumbnails WHERE cache_file IN (...)`; otherwise
`DELETE FROM thumbnails` and `DELETE FROM metadata`.  A Python `None` and an
empty list are both falsy. -/
def clear_index (cache_files : Option (List String)) (db : DB) : DB :=
  if listTruthy cache_files then
    { db with records :=
        db.records.filter (fun r => !(decide (r.cache_file ∈ cache_files.getD []))) }
  else
    { db with records := [], metadata := [] }

/-- `ThumbnailDatabase._set_metadata` (src/indexer.py:224-229): `INSERT OR
REPLACE` into the key/value `metadata` table. -/
def set_metadata (key value : String) (db : DB) : DB :=
  { db with metadata := db.metadata.filter (fun kv => kv.1 != key) ++ [(key, value)] }

/-- The message of the `ImportError` raised by `parse_all_thumbcaches` when the
dissect.thumbcache capability is missing (src/parser.py:320-321). -/
def dissectUnavailableMsg : String :=
  "dissect.thumbcache is not installed. Run: pip install dissect.thumbcache"

/-- `ThumbnailDatabase.index_all` (src/indexer.py:186-222).  The decoder output
is the `entries` parameter.  `clear_index` runs first; `parse_all_thumbcaches`
is a generator, so its `DISSECT_AVAILABLE` check only fires when the `for` loop
first advances it — i.e. after the clear has already been committed.  The
result pairs the final state with either the raised error or the count. -/
def index_all (dissect_available : Bool) (entries : List ThumbnailEntry)
    (selected_files : Option (List String)) (now : String) (db : DB) :
    DB × Except String Nat :=
  let db1 := clear_index selected_files db
  if !dissect_available then
    (db1, Except.error dissectUnavailableMsg)
  else
    let db2 := entries.foldl (fun d e => (index_thumbnail now e d).1) db1
    let db3 := set_metadata "last_indexed" now db2
    let db4 := set_metadata "thumbnail_count" (toString entries.length) db3
    let db5 :=
      match selected_files with
      | some fs => set_metadata "selected_files" (String.intercalate "," fs) db4
      | none => set_metadata "selected_files" "" db4
    (db5, Except.ok entries.length)

/-- `ThumbnailDatabase.get_thumbnail_data` (src/indexer.py:261-266). -/
def get_thumbnail_data (thumb_id : Nat) (db : DB) : Option (List Nat) :=
  (db.records.find? (fun r => r.id == thumb_id)).map DbRecord.data

/-- `ThumbnailDatabase.get_thumbnails_by_ids` (src/indexer.py:357-373):
`WHERE id IN (...)` — each stored row is returned at most once, regardless of
duplicates among the requested ids. -/
def get_thumbnails_by_ids (ids : List Nat) (db : DB) : List DbRecord :=
  if ids.isEmpty then []
  else db.records.filter (fun r => decide (r.id ∈ ids))

/-- SQLite's default ASCII case folding (only `A`-`Z` fold; `LIKE` is
case-insensitive for ASCII only). -/
def asciiLowerChar (c : Char) : Char :=
  if 'A' ≤ c ∧ c ≤ 'Z' then Char.ofNat (c.toNat + 32) else c

/-- SQLite `LIKE` matching over explicit fuel (each step shrinks
`p.length + s.length`, so `p.length + s.length + 1` fuel always suffices):
`%` matches any (possibly empty) run, `_` matches any single character, other
characters compare after ASCII case folding. -/
def likeMatchAux : Nat → List Char → List Char → Bool
  | 0, _, _ => false
  | fuel + 1, p, s =>
    match p, s with
    | [], [] => true
    | [], _ :: _ => false
    | '%' :: ps, s =>
      likeMatchAux fuel ps s ||
        (match s with
         | [] => false
         | _ :: cs => likeMatchAux fuel ('%' :: ps) cs)
    | '_' :: _, [] => false
    | '_' :: ps, _ :: cs => likeMatchAux fuel ps cs
    | _ :: _, [] => false
    | c :: ps, d :: cs => asciiLowerChar c == asciiLowerChar d && likeMatchAux fuel ps cs

/-- SQLite `LIKE` matching of pattern `p` against text `s`. -/
def likeMatch (p s : List Char) : Bool :=
  likeMatchAux (p.length + s.length + 1) p s

/-- The SQL pattern `'%' || term || '%'` the code binds for every substring
filter (src/indexer.py:305,314). -/
def likePat (term : String) : String := "%" ++ term ++ "%"

/-- `column LIKE pattern` on a non-null TEXT column. -/
def likeStr (v : String) (pat : String) : Bool := likeMatch pat.data v.data

/-- `column LIKE pattern` on a nullable TEXT column: `NULL LIKE x` is `NULL`,
which is falsy in a `WHERE` clause. -/
def likeOpt (field : Option String) (pat : String) : Bool :=
  match field with
  | some v => likeStr v pat
  | none => false

/-- The optional arguments of `ThumbnailDatabase.get_thumbnails`
(src/indexer.py:268-274). -/
structure ThumbQuery where
  cache_size : Option String := none
  search : Option String := none
  sort : String := "newest"
  image_format : Option String := none
  extension : Option String := none
  cache_files : Option (List String) := none

/-- The `WHERE` conditions built by `get_thumbnails`
(src/indexer.py:292-315), in source order; each truthy argument contributes
one condition and they are joined by `AND`.  `=` on a nullable column is
`NULL`-falsy; the search clause is the four-way `OR` of `LIKE`s. -/
def conditions (q : ThumbQuery) : List (DbRecord → Bool) :=
  (if strTruthy q.cache_size then
      [fun r => r.cache_size == some (q.cache_size.getD "")]
    else []) ++
  (if strTruthy q.image_format then
      [fun r => r.image_format == some (q.image_format.getD "")]
    else []) ++
  (if strTruthy q.extension then
      [fun r => likeOpt r.extension (likePat (q.extension.getD ""))]
    else []) ++
  (if listTruthy q.cache_files then
      [fun r => decide (r.cache_file ∈ q.cache_files.getD [])]
    else []) ++
  (if strTruthy q.search then
      [fun r =>
        likeOpt r.hash (likePat (q.search.getD "")) ||
        likeStr r.cache_key (likePat (q.search.getD "")) ||
        likeOpt r.entry_hash (likePat (q.search.getD "")) ||
        likeOpt r.extension (likePat (q.search.getD ""))]
    else [])

/-- A row satisfies the assembled `WHERE` clause. -/
def rowMatches (q : ThumbQuery) (r : DbRecord) : Bool :=
  (conditions q).all (fun c => c r)

/-- Byte-order comparison of strings (SQLite's default BINARY collation,
restricted to the text actually stored). -/
def charListLt : List Char → List Char → Bool
  | [], [] => false
  | [], _ :: _ => true
  | _ :: _, [] => false
  | a :: as, b :: bs => a < b || (a == b && charListLt as bs)

/-- Non-strict BINARY-collation comparison. -/
def strLeB (a b : String) : Bool := charListLt a.data b.data || a == b

/-- The `ORDER BY` comparator chosen by the `sort_mapping` table
(src/indexer.py:320-327); an unrecognised sort value falls back to
`indexed_at DESC`.  `modified` is `last_modified DESC NULLS LAST`. -/
def sortLe (sort : String) (a b : DbRecord) : Bool :=
  if sort == "oldest" then strLeB a.indexed_at b.indexed_at
  else if sort == "largest" then decide (b.data_size ≤ a.data_size)
  else if sort == "smallest" then decide (a.data_size ≤ b.data_size)
  else if sort == "modified" then
    (match a.last_modified, b.last_modified with
     | some x, some y => strLeB y x
     | some _, none => true
     | none, some _ => false
     | none, none => true)
  else strLeB b.indexed_at a.indexed_at

/-- Insertion step of the deterministic sort modelling `ORDER BY`. -/
def insertLe {α : Type} (le : α → α → Bool) (a : α) : List α → List α
  | [] => [a]
  | b :: bs => if le a b then a :: b :: bs else b :: insertLe le a bs

/-- Deterministic sort modelling `ORDER BY` (a permutation of its input). -/
def sortByLe {α : Type} (le : α → α → Bool) : List α → List α
  | [] => []
  | a :: as => insertLe le a (sortByLe le as)

/-- One list row of `get_thumbnails`: every column except the payload, plus the
derived `dimensions` string (src/indexer.py:337-353). -/
structure ThumbSummary where
  id : Nat
  cache_file : String
  cache_key : String
  cache_size : Option String
  width : Option Nat
  height : Option Nat
  data_size : Nat
  hash : Option String
  entry_hash : Option String
  extension : Option String
  data_checksum : Option String
  header_checksum : Option String
  image_format : Option String
  image_mode : Option String
  last_modified : Option String
  flags : Option Int
  indexed_at : String
  dimensions : Option String
deriving DecidableEq

/-- Row-to-summary projection; `dimensions` is set only when both `width` and
`height` are truthy (Python: `0` and `None` are falsy). -/
def summarize (r : DbRecord) : ThumbSummary :=
  { id := r.id
    cache_file := r.cache_file
    cache_key := r.cache_key
    cache_size := r.cache_size
    width := r.width
    height := r.height
    data_size := r.data_size
    hash := r.hash
    entry_hash := r.entry_hash
    extension := r.extension
    data_checksum := r.data_checksum
    header_checksum := r.header_checksum
    image_format := r.image_format
    image_mode := r.image_mode
    last_modified := r.last_modified
    flags := r.flags
    indexed_at := r.indexed_at
    dimensions :=
      match r.width, r.height with
      | some w, some h =>
        if w ≠ 0 && h ≠ 0 then some (toString w ++ "x" ++ toString h) else none
      | _, _ => none }

/-- `ThumbnailDatabase.get_thumbnails` (src/indexer.py:268-355): the count
query runs over the `WHERE` clause alone; the page query adds `ORDER BY` and
`LIMIT per_page OFFSET (page-1)*per_page`; fetched rows are summarized. -/
def get_thumbnails (q : ThumbQuery) (page per_page : Nat) (db : DB) :
    List ThumbSummary × Nat :=
  let matching := db.records.filter (rowMatches q)
  let total := matching.length
  let sorted := sortByLe (sortLe q.sort) matching
  let pageRows := (sorted.drop ((page - 1) * per_page)).take per_page
  (pageRows.map summarize, total)

/-- The relevant observable state of a decoded PIL image: its colour mode,
whether `'transparency' in img.info`, and its (opaque) pixel content. -/
structure PILImage where
  mode : String
  hasTransparency : Bool
  pixels : List Nat
deriving DecidableEq

/-- `parser.get_thumbnail_as_png` (src/parser.py:344-362).  The PIL codec is an
oracle of pure functions: `openImage` models `Image.open` (`none` = decode
raised), `convertRGB` models `img.convert('RGB')`, `savePNG` models
`img.save(..., format='PNG')` (`none` = save raised).  The `except` clause
returns the original bytes on any failure inside the `try` block. -/
def get_thumbnail_as_png (openImage : List Nat → Option PILImage)
    (convertRGB : PILImage → PILImage) (savePNG : PILImage → Option (List Nat))
    (data : List Nat) : List Nat :=
  match openImage data with
  | none => data
  | some img =>
    let img2 :=
      if img.mode == "RGBA" || img.mode == "LA" ||
          (img.mode == "P" && img.hasTransparency) then img
      else if img.mode != "RGB" then convertRGB img
      else img
    match savePNG img2 with
    | none => data
    | some out => out

/-- The folder component of an export entry (src/exporter.py:49,54):
`thumb.get('cache_size', 'unknown')` — the key is always present in the row
dict, so a NULL column yields Python `None`, rendered by the f-string as the
literal `"None"`. -/
def exportFolder (r : DbRecord) : String :=
  match r.cache_size with
  | some s => s
  | none => "None"

/-- The hash component of an export entry (src/exporter.py:50): the first 8
characters when the hash is truthy, else the literal `"unknown"`. -/
def hashPart (r : DbRecord) : String :=
  match r.hash with
  | some h => if h.isEmpty then "unknown" else h.take 8
  | none => "unknown"

/-- The extension component of an export entry (src/exporter.py:51): dots are
stripped; a falsy extension contributes nothing. -/
def extPart (r : DbRecord) : String :=
  match r.extension with
  | some e => if e.isEmpty then "" else e.replace "." ""
  | none => ""

/-- The file-name component of an export entry (src/exporter.py:55-58). -/
def exportFilename (r : DbRecord) : String :=
  let base := toString r.id ++ "_" ++ hashPart r
  let base2 := if (extPart r).isEmpty then base else base ++ "_" ++ extPart r
  base2 ++ ".png"

/-- The full archive path of an export entry (src/exporter.py:60). -/
def exportPath (r : DbRecord) : String :=
  exportFolder r ++ "/" ++ exportFilename r

/-- Python `str(...)` of an optional number (`None` prints as `"None"`). -/
def pyStrOptNat : Option Nat → String
  | none => "None"
  | some n => toString n

/-- Python `str(...)` of an optional integer. -/
def pyStrOptInt : Option Int → String
  | none => "None"
  | some n => toString n

/-- An optional string interpolated into an f-string (`None` → `"None"`). -/
def pyStrOptStr : Option String → String
  | none => "None"
  | some s => s

/-- `exporter.escape_csv` (src/exporter.py:166-173) on a definitely-present
string value. -/
def escape_csv_str (value : String) : String :=
  if value.contains ',' || value.contains '"' || value.contains '\n' then
    "\"" ++ value.replace "\"" "\"\"" ++ "\""
  else value

/-- `exporter.escape_csv` on a nullable value (`None` → `''`). -/
def escape_csv (value : Option String) : String :=
  match value with
  | none => ""
  | some v => escape_csv_str v

/-- Repeat a character `n` times (Python `"=" * n`). -/
def charRun (c : Char) (n : Nat) : String := String.mk (List.replicate n c)

/-- Zero-pad a digit string to a given width (Python `format(..., '0Nd/X')`). -/
def padZeros (w : Nat) (s : String) : String :=
  if s.length < w then charRun '0' (w - s.length) ++ s else s

/-- Uppercase hexadecimal digits of a natural number. -/
def hexUpper (n : Nat) : String := String.mk ((Nat.toDigits 16 n).map Char.toUpper)

/-- `exporter.format_flags` (src/exporter.py:176-180): `None` → `"Unknown"`,
else `f"0x{flags:08X} ({flags})"`; a negative value keeps Python's sign-aware
zero padding. -/
def format_flags : Option Int → String
  | none => "Unknown"
  | some f =>
    let hex :=
      if f < 0 then "-" ++ padZeros 7 (hexUpper f.natAbs)
      else padZeros 8 (hexUpper f.natAbs)
    "0x" ++ hex ++ " (" ++ toString f ++ ")"

/-- Insert thousands separators into a reversed digit list. -/
def groupDigitsAux (ds : List Char) : List Char :=
  if _h : ds.length ≤ 3 then ds
  else ds.take 3 ++ [','] ++ groupDigitsAux (ds.drop 3)
termination_by ds.length
decreasing_by simp_arith [List.length_drop]; omega

/-- Python's `f"{n:,}"` thousands-grouped decimal rendering. -/
def groupDigits (n : Nat) : String :=
  String.mk ((groupDigitsAux (toString n).data.reverse).reverse)

/-- The per-record block of `exporter.generate_export_metadata`
(src/exporter.py:96-124); `idx` comes from `enumerate(thumbnails, 1)`.
Every `thumb.get(key, default)` call sees a present key, so NULL columns
render as `"None"`, except `flags`, which goes through `format_flags`. -/
def metadataLinesFor (idx : Nat) (t : DbRecord) : List String :=
  [ "[" ++ toString idx ++ "] Thumbnail ID: " ++ toString t.id
  , charRun '-' 50
  , ""
  , "  IMAGE INFORMATION:"
  , "    Dimensions:      " ++ pyStrOptNat t.width ++ "x" ++ pyStrOptNat t.height
  , "    Data Size:       " ++ groupDigits t.data_size ++ " bytes"
  , "    Image Format:    " ++ pyStrOptStr t.image_format
  , "    Color Mode:      " ++ pyStrOptStr t.image_mode
  , "    File Extension:  " ++ pyStrOptStr t.extension
  , ""
  , "  CACHE INFORMATION:"
  , "    Cache File:      " ++ t.cache_file
  , "    Cache Size Type: " ++ pyStrOptStr t.cache_size
  , "    Cache Key (ID):  " ++ t.cache_key
  , "    Entry Hash:      " ++ pyStrOptStr t.entry_hash
  , ""
  , "  CHECKSUMS & HASHES:"
  , "    MD5 Hash:        " ++ pyStrOptStr t.hash
  , "    Data Checksum:   " ++ pyStrOptStr t.data_checksum
  , "    Header Checksum: " ++ pyStrOptStr t.header_checksum
  , ""
  , "  TIMESTAMPS & FLAGS:"
  , "    Last Modified:   " ++ pyStrOptStr t.last_modified
  , "    Indexed At:      " ++ t.indexed_at
  , "    Flags:           " ++ format_flags t.flags
  , "" ]

/-- `exporter.generate_export_metadata` (src/exporter.py:80-126); the export
timestamp `datetime.now()` is the `now` parameter. -/
def generate_export_metadata (now : String) (thumbnails : List DbRecord) : String :=
  let header : List String :=
    [ charRun '=' 70
    , "THUMBNAIL CACHE EXPORT"
    , charRun '=' 70
    , "Exported: " ++ now
    , "Total thumbnails: " ++ toString thumbnails.length
    , ""
    , "NOTE: Original file paths are not stored in the thumbnail cache."
    , "      They can be recovered from Windows Search (Windows.edb) database."
    , ""
    , charRun '=' 70
    , "" ]
  let body := (thumbnails.enum.map (fun it => metadataLinesFor (it.1 + 1) it.2)).flatten
  String.intercalate "\n" (header ++ body)

/-- One CSV row of `exporter.generate_export_csv` (src/exporter.py:141-161);
`str()` is applied to `id`, `width`, `height`, `data_size` and `flags`
(so NULLs there print as `"None"`), the rest go through `escape_csv`. -/
def csvRow (t : DbRecord) : String :=
  String.intercalate ","
    [ toString t.id
    , escape_csv_str t.cache_file
    , escape_csv_str t.cache_key
    , escape_csv t.cache_size
    , pyStrOptNat t.width
    , pyStrOptNat t.height
    , toString t.data_size
    , escape_csv t.image_format
    , escape_csv t.image_mode
    , escape_csv t.extension
    , escape_csv t.hash
    , escape_csv t.entry_hash
    , escape_csv t.data_checksum
    , escape_csv t.header_checksum
    , escape_csv t.last_modified
    , escape_csv_str t.indexed_at
    , pyStrOptInt t.flags ]

/-- The fixed CSV header row (src/exporter.py:132-139). -/
def csvHeader : String :=
  String.intercalate ","
    [ "id", "cache_file", "cache_key", "cache_size", "width", "height"
    , "data_size", "image_format", "image_mode", "extension", "hash"
    , "entry_hash", "data_checksum", "header_checksum", "last_modified"
    , "indexed_at", "flags" ]

/-- `exporter.generate_export_csv` (src/exporter.py:129-163). -/
def generate_export_csv (thumbnails : List DbRecord) : String :=
  String.intercalate "\n" (csvHeader :: thumbnails.map csvRow)

/-- Payload of one archive member: `zipfile.writestr` accepts bytes (images)
or text (the two reports). -/
inductive ZipData where
  | bin : List Nat → ZipData
  | txt : String → ZipData
deriving DecidableEq

/-- `exporter.export_thumbnails_to_zip` (src/exporter.py:29-77), as the ordered
list of archive members it writes: one normalized image per fetched record
(under `exportPath`), then `metadata.txt`, then `metadata.csv`. -/
def export_thumbnails_to_zip (openImage : List Nat → Option PILImage)
    (convertRGB : PILImage → PILImage) (savePNG : PILImage → Option (List Nat))
    (now : String) (db : DB) (ids : List Nat) : List (String × ZipData) :=
  let thumbnails := get_thumbnails_by_ids ids db
  thumbnails.map (fun r =>
      (exportPath r, ZipData.bin (get_thumbnail_as_png openImage convertRGB savePNG r.data)))
    ++ [ ("metadata.txt", ZipData.txt (generate_export_metadata now thumbnails))
       , ("metadata.csv", ZipData.txt (generate_export_csv thumbnails)) ]

/-- The `UNIQUE(cache_file, cache_key)` table invariant: no two rows share the
origin-file/cache-key pair. -/
def UniqueKeys (db : DB) : Prop :=
  List.Pairwise
    (fun a b => ¬(a.cache_file = b.cache_file ∧ a.cache_key = b.cache_key))
    db.records

instance (db : DB) : Decidable (UniqueKeys db) := by
  unfold UniqueKeys; infer_instance

/-- The rowids currently stored for a given `(cache_file, cache_key)` pair. -/
def recordIdsForKey (file key : String) (db : DB) : List Nat :=
  (db.records.filter (sameKey file key)).map DbRecord.id

/-- Exact character-list prefix test (spec-side helper). -/
def isPrefixChars : List Char → List Char → Bool
  | [], _ => true
  | _ :: _, [] => false
  | a :: as, b :: bs => a == b && isPrefixChars as bs

/-- Exact (case-sensitive) substring occurrence test (spec-side helper). -/
def isSubChars (n : List Char) : List Char → Bool
  | [] => isPrefixChars n []
  | c :: cs => isPrefixChars n (c :: cs) || isSubChars n cs

/-- Occurrence of `needle` as a literal substring of an optional field; a NULL
field contains nothing. -/
def optHasSub (field : Option String) (needle : String) : Bool :=
  match field with
  | some v => isSubChars needle.data v.data
  | none => false

/-- Modelled from the spec's words (for comparison with the code's `LIKE`-based
clause): "a multi-field substring search applied as an OR across
{content hash, cache-key, entry hash, extension}" — the term occurs as a
literal substring of at least one of the four fields. -/
def spec_search_matches (s : String) (r : DbRecord) : Bool :=
  optHasSub r.hash s || isSubChars s.data r.cache_key.data ||
    optHasSub r.entry_hash s || optHasSub r.extension s

/-- A minimal concrete entry used by the concrete-evaluation theorems. -/
def cexEntry : ThumbnailEntry :=
  { cache_file := "thumbcache_256.db", cache_key := "k1", data := [1], data_size := 1 }

/-- The same key as `cexEntry` with a different payload. -/
def cexEntry2 : ThumbnailEntry :=
  { cache_file := "thumbcache_256.db", cache_key := "k1", data := [2, 3], data_size := 2 }

/-- State after indexing `cexEntry` into a fresh store. -/
def cexDb1 : DB := (index_thumbnail "t1" cexEntry emptyDB).1

/-- State after re-indexing the same key (`cexEntry2`) into `cexDb1`. -/
def cexDb2 : DB := (index_thumbnail "t2" cexEntry2 cexDb1).1

/-- A one-record store used by the concrete-evaluation theorems. -/
def cexRecord : DbRecord := recordOfEntry 1 "t1" cexEntry

/-- A record with NULL `cache_size`, `hash` and `extension`, as stored for an
undecodable payload from an unrecognised cache file. -/
def cexNullRecord : DbRecord :=
  { id := 1
    cache_file := "f"
    cache_key := "k"
    cache_size := none
    width := none
    height := none
    data_size := 0
    hash := none
    data := []
    entry_hash := none
    extension := none
    data_checksum := none
    header_checksum := none
    image_format := none
    image_mode := none
    last_modified := none
    flags := none
    indexed_at := "t" }

/-- A record whose `cache_key` is upper-case `"ABC"`, with all searchable
optional fields NULL. -/
def cexUpperRecord : DbRecord :=
  { cexNullRecord with cache_key := "ABC" }

/-- A query consisting of only the search term `"abc"`. -/
def cexSearchQuery : ThumbQuery := { search := some "abc" }

lemma listTruthy_of_ne_nil {fs : List String} (h : fs ≠ []) :
    listTruthy (some fs) = true := by
  cases fs with
  | nil => exact absurd rfl h
  | cons a l => rfl

lemma clear_index_some_of_ne_nil (db : DB) {fs : List String} (h : fs ≠ []) :
    clear_index (some fs) db
      = { db with records := db.records.filter (fun r => !(decide (r.cache_file ∈ fs))) } := by
  unfold clear_index
  rw [listTruthy_of_ne_nil h]
  rfl

/-- C6: scoped clear deletes exactly the records whose origin file is in the
(non-empty) scope, keeps every other record, and leaves the run metadata
untouched; the unscoped clear deletes all records and all run metadata. -/
theorem clear_index_scoped_frame (db : DB) (fs : List String) (hne : fs ≠ []) :
    (∀ r ∈ db.records, r.cache_file ∉ fs → r ∈ (clear_index (some fs) db).records)
    ∧ (∀ r ∈ (clear_index (some fs) db).records, r ∈ db.records ∧ r.cache_file ∉ fs)
    ∧ (clear_index (some fs) db).metadata = db.metadata
    ∧ (clear_index (some fs) db).records
        = db.records.filter (fun r => !(decide (r.cache_file ∈ fs)))
    ∧ (clear_index none db).records = [] ∧ (clear_index none db).metadata = [] := by
  rw [clear_index_some_of_ne_nil db hne]
  refine ⟨?_, ?_, rfl, rfl, rfl, rfl⟩
  · intro r hr hnot
    simp only [List.mem_filter]
    exact ⟨hr, by simp [hnot]⟩
  · intro r hr
    simp only [List.mem_filter] at hr
    exact ⟨hr.1, by simpa using hr.2⟩

/-- Witness for `clear_index_scoped_frame` at a concrete store and scope. -/
theorem clear_index_scoped_frame_witness :
    (["thumbcache_32.db"] : List String) ≠ []
    ∧ ((∀ r ∈ cexDb1.records, r.cache_file ∉ ["thumbcache_32.db"] →
          r ∈ (clear_index (some ["thumbcache_32.db"]) cexDb1).records)
       ∧ (∀ r ∈ (clear_index (some ["thumbcache_32.db"]) cexDb1).records,
          r ∈ cexDb1.records ∧ r.cache_file ∉ ["thumbcache_32.db"])
       ∧ (clear_index (some ["thumbcache_32.db"]) cexDb1).metadata = cexDb1.metadata
       ∧ (clear_index (some ["thumbcache_32.db"]) cexDb1).records
           = cexDb1.records.filter (fun r => !(decide (r.cache_file ∈ ["thumbcache_32.db"])))
       ∧ (clear_index none cexDb1).records = []
       ∧ (clear_index none cexDb1).metadata = []) :=
  ⟨by decide, clear_index_scoped_frame cexDb1 ["thumbcache_32.db"] (by decide)⟩

/-- C10: an empty scope list is falsy in Python, so `clear_index([])` takes the
full-clear branch (all records and all metadata deleted), exactly like the
unscoped call; the records-only branch is reserved for non-empty scopes, and
`index_all` treats an empty scope identically to no scope. -/
theorem clear_index_empty_scope_full_clear (db : DB) :
    clear_index (some []) db = clear_index none db
    ∧ (clear_index (some []) db).records = []
    ∧ (clear_index (some []) db).metadata = []
    ∧ (∀ fs : List String, fs ≠ [] → (clear_index (some fs) db).metadata = db.metadata)
    ∧ (∀ (avail : Bool) (entries : List ThumbnailEntry) (now : String),
        index_all avail entries (some []) now db = index_all avail entries none now db) := by
  refine ⟨rfl, rfl, rfl, ?_, ?_⟩
  · intro fs hne
    rw [clear_index_some_of_ne_nil db hne]
  · intro avail entries now
    rfl

/-- Witness for `clear_index_empty_scope_full_clear` at a concrete store. -/
theorem clear_index_empty_scope_full_clear_witness :
    clear_index (some []) cexDb1 = clear_index none cexDb1
    ∧ (clear_index (some []) cexDb1).records = []
    ∧ (clear_index (some []) cexDb1).metadata = []
    ∧ (∀ fs : List String, fs ≠ [] → (clear_index (some fs) cexDb1).metadata = cexDb1.metadata)
    ∧ (∀ (avail : Bool) (entries : List ThumbnailEntry) (now : String),
        index_all avail entries (some []) now cexDb1 = index_all avail entries none now cexDb1) :=
  clear_index_empty_scope_full_clear cexDb1

/-- C5: when the image codec fails to decode the input, the normalizer returns
exactly the original bytes and raises nothing (it is a total function); and it
is deterministic — the same bytes always normalize to the same output. -/
theorem normalizer_failure_identity_and_deterministic
    (openImage : List Nat → Option PILImage) (convertRGB : PILImage → PILImage)
    (savePNG : PILImage → Option (List Nat)) (data : List Nat)
    (hfail : openImage data = none) :
    get_thumbnail_as_png openImage convertRGB savePNG data = data
    ∧ ∀ d : List Nat,
        get_thumbnail_as_png openImage convertRGB savePNG d
          = get_thumbnail_as_png openImage convertRGB savePNG d := by
  refine ⟨?_, fun d => rfl⟩
  simp [get_thumbnail_as_png, hfail]

/-- Witness for `normalizer_failure_identity_and_deterministic`: a codec that
rejects everything, applied to concrete bytes. -/
theorem normalizer_failure_identity_and_deterministic_witness :
    (fun _ : List Nat => (none : Option PILImage)) [0, 1] = none
    ∧ (get_thumbnail_as_png (fun _ => none) id (fun i => some i.pixels) [0, 1] = [0, 1]
       ∧ ∀ d : List Nat,
          get_thumbnail_as_png (fun _ => none) id (fun i => some i.pixels) d
            = get_thumbnail_as_png (fun _ => none) id (fun i => some i.pixels) d) :=
  ⟨rfl, normalizer_failure_identity_and_deterministic
    (fun _ => none) id (fun i => some i.pixels) [0, 1] rfl⟩

lemma sameKey_recordOfEntry (e : ThumbnailEntry) (newId : Nat) (now : String) :
    sameKey e.cache_file e.cache_key (recordOfEntry newId now e) = true := by
  simp [sameKey, recordOfEntry]

lemma filter_key_index_thumbnail (db : DB) (now : String) (e : ThumbnailEntry) :
    ((index_thumbnail now e db).1).records.filter (sameKey e.cache_file e.cache_key)
      = [recordOfEntry db.nextId now e] := by
  show ((db.records.filter _ ++ [recordOfEntry db.nextId now e]).filter _) = _
  rw [List.filter_append, List.filter_filter]
  have h1 : (db.records.filter
      (fun a => sameKey e.cache_file e.cache_key a && !sameKey e.cache_file e.cache_key a)) = [] := by
    simp
  rw [h1]
  simp [sameKey_recordOfEntry]

lemma not_sameKey_of_mem_kept {db : DB} {e : ThumbnailEntry} {a : DbRecord}
    (ha : a ∈ db.records.filter (fun r => !sameKey e.cache_file e.cache_key r)) :
    ¬(a.cache_file = e.cache_file ∧ a.cache_key = e.cache_key) := by
  rw [List.mem_filter] at ha
  intro hcon
  have : sameKey e.cache_file e.cache_key a = true := by
    simp [sameKey, hcon.1, hcon.2]
  simp [this] at ha

lemma uniqueKeys_index_thumbnail (db : DB) (now : String) (e : ThumbnailEntry)
    (h : UniqueKeys db) : UniqueKeys (index_thumbnail now e db).1 := by
  show List.Pairwise _ (db.records.filter _ ++ [recordOfEntry db.nextId now e])
  rw [List.pairwise_append]
  refine ⟨h.filter _, List.pairwise_singleton _ _, ?_⟩
  intro a ha b hb
  rw [List.mem_singleton] at hb
  subst hb
  intro hcon
  exact not_sameKey_of_mem_kept ha (by simpa [recordOfEntry] using hcon)

lemma uniqueKeys_clear_index (db : DB) (scope : Option (List String))
    (h : UniqueKeys db) : UniqueKeys (clear_index scope db) := by
  unfold UniqueKeys clear_index
  by_cases hc : listTruthy scope = true
  · rw [if_pos hc]
    exact h.filter _
  · rw [if_neg hc]
    exact List.Pairwise.nil

lemma uniqueKeys_set_metadata (db : DB) (k v : String)
    (h : UniqueKeys db) : UniqueKeys (set_metadata k v db) := h

lemma uniqueKeys_foldl_index (entries : List ThumbnailEntry) (now : String) :
    ∀ db : DB, UniqueKeys db →
      UniqueKeys (entries.foldl (fun d e => (index_thumbnail now e d).1) db) := by
  induction entries with
  | nil => intro db h; exact h
  | cons e es ih =>
    intro db h
    exact ih _ (uniqueKeys_index_thumbnail db now e h)

lemma uniqueKeys_index_all (db : DB) (avail : Bool) (entries : List ThumbnailEntry)
    (scope : Option (List String)) (now : String)
    (h : UniqueKeys db) : UniqueKeys (index_all avail entries scope now db).1 := by
  unfold index_all
  by_cases ha : avail
  · subst ha
    simp only [Bool.not_true, if_neg (by simp : ¬((false : Bool) = true))]
    cases scope with
    | some fs =>
      exact uniqueKeys_set_metadata _ _ _ (uniqueKeys_set_metadata _ _ _
        (uniqueKeys_set_metadata _ _ _
          (uniqueKeys_foldl_index entries now _ (uniqueKeys_clear_index db _ h))))
    | none =>
      exact uniqueKeys_set_metadata _ _ _ (uniqueKeys_set_metadata _ _ _
        (uniqueKeys_set_metadata _ _ _
          (uniqueKeys_foldl_index entries now _ (uniqueKeys_clear_index db _ h))))
  · have hb : avail = false := by simpa using ha
    subst hb
    exact uniqueKeys_clear_index db scope h

/-- C1: upserting the same `(cache_file, cache_key)` twice leaves exactly one
row for that key, whose indexed fields are exactly those of the second entry
(with the freshly allocated rowid); and every store operation preserves the
`UNIQUE(cache_file, cache_key)` invariant — no operation leaves two rows
sharing the same key. -/
theorem upsert_idempotent_and_unique (db : DB) (now1 now2 : String)
    (e1 e2 : ThumbnailEntry)
    (hf : e1.cache_file = e2.cache_file) (hk : e1.cache_key = e2.cache_key) :
    ((index_thumbnail now2 e2 (index_thumbnail now1 e1 db).1).1).records.filter
        (sameKey e2.cache_file e2.cache_key)
      = [recordOfEntry (db.nextId + 1) now2 e2]
    ∧ (∀ (db' : DB) (now : String) (e : ThumbnailEntry),
        UniqueKeys db' → UniqueKeys (index_thumbnail now e db').1)
    ∧ (∀ (db' : DB) (scope : Option (List String)),
        UniqueKeys db' → UniqueKeys (clear_index scope db'))
    ∧ (∀ (db' : DB) (k v : String),
        UniqueKeys db' → UniqueKeys (set_metadata k v db'))
    ∧ (∀ (db' : DB) (avail : Bool) (entries : List ThumbnailEntry)
         (scope : Option (List String)) (now : String),
        UniqueKeys db' → UniqueKeys (index_all avail entries scope now db').1) := by
  refine ⟨?_, fun db' now e h => uniqueKeys_index_thumbnail db' now e h,
    fun db' scope h => uniqueKeys_clear_index db' scope h,
    fun db' k v h => uniqueKeys_set_metadata db' k v h,
    fun db' avail entries scope now h =>
      uniqueKeys_index_all db' avail entries scope now h⟩
  exact filter_key_index_thumbnail (index_thumbnail now1 e1 db).1 now2 e2

/-- Witness for `upsert_idempotent_and_unique`: two entries with the same key
and different payloads upserted into a fresh store. -/
theorem upsert_idempotent_and_unique_witness :
    (cexEntry.cache_file = cexEntry2.cache_file ∧ cexEntry.cache_key = cexEntry2.cache_key)
    ∧ (((index_thumbnail "t2" cexEntry2 (index_thumbnail "t1" cexEntry emptyDB).1).1).records.filter
          (sameKey cexEntry2.cache_file cexEntry2.cache_key)
        = [recordOfEntry (emptyDB.nextId + 1) "t2" cexEntry2]
       ∧ (∀ (db' : DB) (now : String) (e : ThumbnailEntry),
          UniqueKeys db' → UniqueKeys (index_thumbnail now e db').1)
       ∧ (∀ (db' : DB) (scope : Option (List String)),
          UniqueKeys db' → UniqueKeys (clear_index scope db'))
       ∧ (∀ (db' : DB) (k v : String),
          UniqueKeys db' → UniqueKeys (set_metadata k v db'))
       ∧ (∀ (db' : DB) (avail : Bool) (entries : List ThumbnailEntry)
            (scope : Option (List String)) (now : String),
          UniqueKeys db' → UniqueKeys (index_all avail entries scope now db').1)) :=
  ⟨⟨by decide, by decide⟩,
    upsert_idempotent_and_unique emptyDB "t1" "t2" cexEntry cexEntry2 (by decide) (by decide)⟩

/-- C2 counterexample: re-indexing the key `("thumbcache_256.db", "k1")`
changes its rowid from 1 to 2 — `INSERT OR REPLACE` deletes the old row and
inserts a fresh one with a fresh AUTOINCREMENT id, so the surrogate identifier
is not stable across re-index. -/
theorem reindex_changes_id_counterexample :
    recordIdsForKey "thumbcache_256.db" "k1" cexDb1 = [1]
    ∧ recordIdsForKey "thumbcache_256.db" "k1" cexDb2 = [2]
    ∧ recordIdsForKey "thumbcache_256.db" "k1" cexDb2
        ≠ recordIdsForKey "thumbcache_256.db" "k1" cexDb1 := by
  refine ⟨by decide, by decide, by decide⟩

/-- C2 (amended): re-indexing an existing key still leaves exactly one row for
that key, and `index_thumbnail` returns its identifier — but that identifier is
the store's next AUTOINCREMENT value, which differs from every identifier
already in the store (in particular from the replaced row's). -/
theorem reindex_allocates_fresh_id (db : DB) (now : String) (e : ThumbnailEntry)
    (rOld : DbRecord) (hmem : rOld ∈ db.records)
    (hkey : sameKey e.cache_file e.cache_key rOld = true)
    (hbound : ∀ r ∈ db.records, r.id < db.nextId) :
    (index_thumbnail now e db).2 = db.nextId
    ∧ ((index_thumbnail now e db).1).records.filter (sameKey e.cache_file e.cache_key)
        = [recordOfEntry db.nextId now e]
    ∧ (recordOfEntry db.nextId now e).id ≠ rOld.id := by
  refine ⟨rfl, filter_key_index_thumbnail db now e, ?_⟩
  have h := hbound rOld hmem
  simp only [recordOfEntry]
  omega

/-- Witness for `reindex_allocates_fresh_id`: re-indexing the single key of the
one-row store `cexDb1`. -/
theorem reindex_allocates_fresh_id_witness :
    (cexRecord ∈ cexDb1.records
     ∧ sameKey cexEntry2.cache_file cexEntry2.cache_key cexRecord = true
     ∧ ∀ r ∈ cexDb1.records, r.id < cexDb1.nextId)
    ∧ ((index_thumbnail "t2" cexEntry2 cexDb1).2 = cexDb1.nextId
       ∧ ((index_thumbnail "t2" cexEntry2 cexDb1).1).records.filter
            (sameKey cexEntry2.cache_file cexEntry2.cache_key)
          = [recordOfEntry cexDb1.nextId "t2" cexEntry2]
       ∧ (recordOfEntry cexDb1.nextId "t2" cexEntry2).id ≠ cexRecord.id) :=
  ⟨⟨by decide, by decide, by decide⟩,
    reindex_allocates_fresh_id cexDb1 "t2" cexEntry2 cexRecord
      (by decide) (by decide) (by decide)⟩

/-- C3: when the decoder capability is unavailable, `index_all` does raise the
distinct "decoder unavailable" `ImportError` — but only after `clear_index` has
already run and committed, because `parse_all_thumbcaches` is a generator whose
body (including the availability check) first executes when the `for` loop
advances it.  Concretely: on the one-row store `cexDb1` an unscoped call wipes
all records and metadata and then errors, so the store is not left as it was. -/
theorem index_all_unavailable_clears_then_errors :
    (∀ (db : DB) (entries : List ThumbnailEntry) (scope : Option (List String))
       (now : String),
      index_all false entries scope now db
        = (clear_index scope db, Except.error dissectUnavailableMsg))
    ∧ (index_all false [] none "t" cexDb1).2 = Except.error dissectUnavailableMsg
    ∧ ((index_all false [] none "t" cexDb1).1).records = []
    ∧ cexDb1.records ≠ [] := by
  refine ⟨fun db entries scope now => rfl, rfl, rfl, by decide⟩

lemma strTruthy_some_of_ne {s : String} (h : s ≠ "") : strTruthy (some s) = true := by
  unfold strTruthy
  rw [Bool.not_eq_true']
  rw [Bool.eq_false_iff]
  intro hc
  exact h ((String.isEmpty_iff s).mp hc)

/-- C7 counterexample: SQLite `LIKE` is ASCII-case-insensitive, so the search
term `"abc"` matches the record whose `cache_key` is `"ABC"` although `"abc"`
is not a substring of any of its four searchable fields — the search predicate
is not literal-substring occurrence. -/
theorem search_substring_counterexample :
    rowMatches cexSearchQuery cexUpperRecord = true
    ∧ spec_search_matches "abc" cexUpperRecord = false := by
  exact ⟨by decide, by decide⟩

/-- C7 (amended): for a non-empty search term the assembled `WHERE` clause is
the conjunction of the clause without the search condition and the four-way
`OR` of SQLite-`LIKE` matches of the pattern `%term%` (ASCII-case-insensitive,
with `%`/`_` in the term acting as wildcards; NULL fields never match) against
content hash, cache-key, entry hash and extension — i.e. the search predicate
composes with every other filter by logical AND. -/
theorem search_is_like_or_across_four_fields (q : ThumbQuery) (r : DbRecord)
    (s : String) (hs : q.search = some s) (hne : s ≠ "") :
    rowMatches q r
      = (rowMatches { q with search := none } r
         && (likeOpt r.hash (likePat s) || likeStr r.cache_key (likePat s)
             || likeOpt r.entry_hash (likePat s) || likeOpt r.extension (likePat s))) := by
  unfold rowMatches conditions
  rw [hs]
  rw [strTruthy_some_of_ne hne]
  have h0 : strTruthy (none : Option String) = false := rfl
  by_cases h1 : strTruthy q.cache_size <;>
    by_cases h2 : strTruthy q.image_format <;>
      by_cases h3 : strTruthy q.extension <;>
        by_cases h4 : listTruthy q.cache_files <;>
          simp [h0, h1, h2, h3, h4, List.all_append, Bool.and_assoc]

/-- Witness for `search_is_like_or_across_four_fields`: the term `"abc"`
against the record whose `cache_key` is `"ABC"`. -/
theorem search_is_like_or_across_four_fields_witness :
    (cexSearchQuery.search = some "abc" ∧ "abc" ≠ "")
    ∧ rowMatches cexSearchQuery cexUpperRecord
        = (rowMatches { cexSearchQuery with search := none } cexUpperRecord
           && (likeOpt cexUpperRecord.hash (likePat "abc")
               || likeStr cexUpperRecord.cache_key (likePat "abc")
               || likeOpt cexUpperRecord.entry_hash (likePat "abc")
               || likeOpt cexUpperRecord.extension (likePat "abc"))) :=
  ⟨⟨rfl, by decide⟩,
    search_is_like_or_across_four_fields cexSearchQuery cexUpperRecord "abc" rfl (by decide)⟩

/-- C9 counterexample: a record whose `cache_size` column is NULL is written
under the folder `"None"` (Python's `str(None)` via the f-string), not under
the documented fallback token `"unknown"` — `thumb.get('cache_size',
'unknown')` never uses its default because the key is always present. -/
theorem export_naming_none_counterexample :
    exportPath cexNullRecord = "None/1_unknown.png"
    ∧ exportPath cexNullRecord ≠ "unknown/1_unknown.png" := by
  exact ⟨by decide, by decide⟩

/-- C9 (amended): every export entry path has the form
`<folder>/<id>_<hash-part>[_<extension-with-dots-stripped>].png`, where the
hash part is the first 8 characters of the content hash, falling back to
`"unknown"` when the hash is NULL (or empty) — but the folder falls back to
the literal `"None"`, not `"unknown"`, when the cache-size category is NULL. -/
theorem export_entry_naming (r : DbRecord) :
    exportPath r
      = exportFolder r ++ "/" ++ toString r.id ++ "_" ++ hashPart r
          ++ (if (extPart r).isEmpty then "" else "_" ++ extPart r) ++ ".png"
    ∧ (r.hash = none → hashPart r = "unknown")
    ∧ (r.cache_size = none → exportFolder r = "None")
    ∧ (∀ s, r.hash = some s → s ≠ "" → hashPart r = s.take 8)
    ∧ (∀ s, r.cache_size = some s → exportFolder r = s) := by
  refine ⟨?_, ?_, ?_, ?_, ?_⟩
  · unfold exportPath exportFilename
    by_cases h : (extPart r).isEmpty <;>
      simp [h, String.append_assoc, String.append_empty]
  · intro h; simp [hashPart, h]
  · intro h; simp [exportFolder, h]
  · intro s h hne
    have he : s.isEmpty = false := by
      rw [Bool.eq_false_iff]; intro hc; exact hne ((String.isEmpty_iff s).mp hc)
    simp [hashPart, h, he]
  · intro s h; simp [exportFolder, h]

/-- Witness for `export_entry_naming` at the all-NULL record. -/
theorem export_entry_naming_witness :
    exportPath cexNullRecord
      = exportFolder cexNullRecord ++ "/" ++ toString cexNullRecord.id ++ "_"
          ++ hashPart cexNullRecord
          ++ (if (extPart cexNullRecord).isEmpty then "" else "_" ++ extPart cexNullRecord)
          ++ ".png"
    ∧ (cexNullRecord.hash = none → hashPart cexNullRecord = "unknown")
    ∧ (cexNullRecord.cache_size = none → exportFolder cexNullRecord = "None")
    ∧ (∀ s, cexNullRecord.hash = some s → s ≠ "" → hashPart cexNullRecord = s.take 8)
    ∧ (∀ s, cexNullRecord.cache_size = some s → exportFolder cexNullRecord = s) :=
  export_entry_naming cexNullRecord

lemma length_filter_mem_eq (L S : List Nat) (h : L.Nodup) :
    (L.filter (fun x => decide (x ∈ S))).length
      = (S.dedup.filter (fun x => decide (x ∈ L))).length := by
  apply List.Perm.length_eq
  rw [List.perm_ext_iff_of_nodup (h.filter _) ((List.nodup_dedup S).filter _)]
  intro a
  simp only [List.mem_filter, List.mem_dedup, decide_eq_true_eq]
  exact ⟨fun hx => ⟨hx.2, hx.1⟩, fun hx => ⟨hx.2, hx.1⟩⟩

lemma get_thumbnails_by_ids_length (ids : List Nat) (db : DB)
    (h : (db.records.map DbRecord.id).Nodup) :
    (get_thumbnails_by_ids ids db).length
      = (ids.dedup.filter (fun i => decide (i ∈ db.records.map DbRecord.id))).length := by
  unfold get_thumbnails_by_ids
  by_cases hids : ids.isEmpty
  · rw [if_pos hids]
    have : ids = [] := by simpa [List.isEmpty_iff] using hids
    subst this
    rfl
  · rw [if_neg hids]
    have hmap : db.records.filter (fun r => decide (r.id ∈ ids))
        = db.records.filter ((fun x => decide (x ∈ ids)) ∘ DbRecord.id) := rfl
    rw [hmap, ← List.length_map _ DbRecord.id, ← List.filter_map]
    exact length_filter_mem_eq _ ids h

lemma countP_id_nodup (l : List DbRecord) (i : Nat)
    (h : (l.map DbRecord.id).Nodup) :
    l.countP (fun r => r.id == i) = if i ∈ l.map DbRecord.id then 1 else 0 := by
  induction l with
  | nil => simp
  | cons r rs ih =>
    rw [List.map_cons, List.nodup_cons] at h
    rw [List.countP_cons, ih h.2]
    by_cases hri : r.id = i
    · subst hri
      simp [h.1]
    · simp [hri, Ne.symm hri]

lemma exportPath_has_slash (r : DbRecord) : '/' ∈ (exportPath r).data := by
  unfold exportPath
  rw [String.data_append, String.data_append]
  rw [List.mem_append, List.mem_append]
  left; right
  decide

lemma exportPath_ne_flat (r : DbRecord) (s : String) (hs : '/' ∉ s.data) :
    exportPath r ≠ s := by
  intro h
  exact hs (h ▸ exportPath_has_slash r)

/-- C4: a multi-id export archive holds exactly one image entry per distinct
requested id present in the store plus exactly the two report artifacts
(`metadata.txt` and `metadata.csv`); absent ids are silently omitted (their
image count is 0, no error — the exporter is a total function), and duplicate
requested ids collapse to a single image entry. -/
theorem export_zip_completeness (openImage : List Nat → Option PILImage)
    (convertRGB : PILImage → PILImage) (savePNG : PILImage → Option (List Nat))
    (now : String) (db : DB) (ids : List Nat)
    (hnodup : (db.records.map DbRecord.id).Nodup) :
    (export_thumbnails_to_zip openImage convertRGB savePNG now db ids).length
        = (ids.dedup.filter (fun i => decide (i ∈ db.records.map DbRecord.id))).length + 2
    ∧ (∀ i : Nat, (get_thumbnails_by_ids ids db).countP (fun r => r.id == i)
        = if i ∈ ids ∧ i ∈ db.records.map DbRecord.id then 1 else 0)
    ∧ (∀ i ∈ ids, get_thumbnails_by_ids (i :: ids) db = get_thumbnails_by_ids ids db)
    ∧ (export_thumbnails_to_zip openImage convertRGB savePNG now db ids).countP
        (fun en => en.1 == "metadata.txt") = 1
    ∧ (export_thumbnails_to_zip openImage convertRGB savePNG now db ids).countP
        (fun en => en.1 == "metadata.csv") = 1 := by
  have himglen : ∀ nm : String, '/' ∉ nm.data →
      ((get_thumbnails_by_ids ids db).map (fun r =>
        (exportPath r, ZipData.bin (get_thumbnail_as_png openImage convertRGB savePNG r.data)))).countP
          (fun en => en.1 == nm) = 0 := by
    intro nm hnm
    rw [List.countP_eq_zero]
    intro en hen
    rw [List.mem_map] at hen
    obtain ⟨r, _, hr⟩ := hen
    subst hr
    simp only [beq_iff_eq]
    exact exportPath_ne_flat r nm hnm
  refine ⟨?_, ?_, ?_, ?_, ?_⟩
  · unfold export_thumbnails_to_zip
    rw [List.length_append, List.length_map]
    rw [get_thumbnails_by_ids_length ids db hnodup]
    rfl
  · intro i
    unfold get_thumbnails_by_ids
    by_cases hids : ids.isEmpty
    · rw [if_pos hids]
      have : ids = [] := by simpa [List.isEmpty_iff] using hids
      subst this
      simp
    · rw [if_neg hids]
      rw [List.countP_filter]
      by_cases hin : i ∈ ids
      · have hcong : db.records.countP (fun a => a.id == i && decide (a.id ∈ ids))
            = db.records.countP (fun a => a.id == i) := by
          apply List.countP_congr
          intro a _
          by_cases ha : a.id = i
          · subst ha; simp [hin]
          · simp [ha]
        rw [hcong, countP_id_nodup db.records i hnodup]
        by_cases hmem : i ∈ db.records.map DbRecord.id
        · simp [hmem, hin]
        · simp [hmem, hin]
      · have hzero : db.records.countP (fun a => a.id == i && decide (a.id ∈ ids)) = 0 := by
          rw [List.countP_eq_zero]
          intro a _
          by_cases ha : a.id = i
          · subst ha; simp [hin]
          · simp [ha]
        rw [hzero]
        simp [hin]
  · intro i hin
    unfold get_thumbnails_by_ids
    have h1 : (i :: ids).isEmpty = false := rfl
    have h2 : ids.isEmpty = false := by
      cases ids with
      | nil => exact absurd hin (by simp)
      | cons a l => rfl
    rw [h1, h2]
    simp only [Bool.false_eq_true, if_false]
    apply List.filter_congr
    intro a _
    simp only [decide_eq_decide, List.mem_cons]
    constructor
    · rintro (h | h)
      · exact h ▸ hin
      · exact h
    · exact Or.inr
  · unfold export_thumbnails_to_zip
    rw [List.countP_append, himglen "metadata.txt" (by decide)]
    rfl
  · unfold export_thumbnails_to_zip
    rw [List.countP_append, himglen "metadata.csv" (by decide)]
    rfl

/-- Witness for `export_zip_completeness`: exporting ids `[1, 1, 99]` (a
duplicate and a missing id) from the one-row store `cexDb1`. -/
theorem export_zip_completeness_witness :
    (cexDb1.records.map DbRecord.id).Nodup
    ∧ ((export_thumbnails_to_zip (fun _ => none) id (fun i => some i.pixels) "t" cexDb1
          [1, 1, 99]).length
        = ([1, 1, 99].dedup.filter
            (fun i => decide (i ∈ cexDb1.records.map DbRecord.id))).length + 2
       ∧ (∀ i : Nat, (get_thumbnails_by_ids [1, 1, 99] cexDb1).countP (fun r => r.id == i)
          = if i ∈ [1, 1, 99] ∧ i ∈ cexDb1.records.map DbRecord.id then 1 else 0)
       ∧ (∀ i ∈ [1, 1, 99],
          get_thumbnails_by_ids (i :: [1, 1, 99]) cexDb1
            = get_thumbnails_by_ids [1, 1, 99] cexDb1)
       ∧ (export_thumbnails_to_zip (fun _ => none) id (fun i => some i.pixels) "t" cexDb1
            [1, 1, 99]).countP (fun en => en.1 == "metadata.txt") = 1
       ∧ (export_thumbnails_to_zip (fun _ => none) id (fun i => some i.pixels) "t" cexDb1
            [1, 1, 99]).countP (fun en => en.1 == "metadata.csv") = 1) :=
  ⟨by decide,
    export_zip_completeness (fun _ => none) id (fun i => some i.pixels) "t" cexDb1
      [1, 1, 99] (by decide)⟩

lemma insertLe_perm {α : Type} (le : α → α → Bool) (a : α) (l : List α) :
    (insertLe le a l).Perm (a :: l) := by
  induction l with
  | nil => exact List.Perm.refl _
  | cons b bs ih =>
    unfold insertLe
    by_cases h : le a b
    · rw [if_pos h]
    · rw [if_neg h]
      exact (ih.cons b).trans (List.Perm.swap a b bs)

lemma sortByLe_perm {α : Type} (le : α → α → Bool) (l : List α) :
    (sortByLe le l).Perm l := by
  induction l with
  | nil => exact List.Perm.refl _
  | cons a as ih =>
    exact (insertLe_perm le a (sortByLe le as)).trans (ih.cons a)

lemma join_chunks {α : Type} (L : List α) (k : Nat) (n : Nat) :
    (((List.range n).map (fun i => (L.drop (i * k)).take k)).flatten) = L.take (n * k) := by
  induction n with
  | zero => simp
  | succ n ih =>
    rw [List.range_succ, List.map_append, List.flatten_append, ih]
    simp only [List.map_cons, List.map_nil, List.flatten_cons, List.flatten_nil,
      List.append_nil]
    rw [Nat.succ_mul, List.take_add]

lemma le_ceil_mul (t k : Nat) (hk : 1 ≤ k) : t ≤ ((t + k - 1) / k) * k := by
  rcases Nat.eq_zero_or_pos t with h0 | h1
  · subst h0; exact Nat.zero_le _
  · have e : t + k - 1 = (t - 1) + k := by omega
    rw [e, Nat.add_div_right _ hk, Nat.succ_mul, Nat.mul_comm ((t - 1) / k) k]
    have hdm := Nat.div_add_mod (t - 1) k
    have hmod : (t - 1) % k < k := Nat.mod_lt _ hk
    generalize hq : k * ((t - 1) / k) = M at hdm
    generalize hr : (t - 1) % k = R at hdm hmod
    omega

lemma sorted_summaries_nodup (q : ThumbQuery) (db : DB)
    (h : (db.records.map DbRecord.id).Nodup) :
    ((sortByLe (sortLe q.sort) (db.records.filter (rowMatches q))).map summarize).Nodup := by
  have hsub : ((db.records.filter (rowMatches q)).map DbRecord.id).Sublist
      (db.records.map DbRecord.id) := (List.filter_sublist _).map _
  have h1 : ((db.records.filter (rowMatches q)).map DbRecord.id).Nodup :=
    List.Nodup.sublist hsub h
  have hperm : ((sortByLe (sortLe q.sort) (db.records.filter (rowMatches q))).map
      DbRecord.id).Perm ((db.records.filter (rowMatches q)).map DbRecord.id) :=
    (sortByLe_perm _ _).map _
  have h2 : ((sortByLe (sortLe q.sort) (db.records.filter (rowMatches q))).map
      DbRecord.id).Nodup := hperm.symm.nodup h1
  apply List.Nodup.of_map ThumbSummary.id
  rw [List.map_map]
  have hcomp : (ThumbSummary.id ∘ summarize) = DbRecord.id := funext (fun r => rfl)
  rw [hcomp]
  exact h2

/-- C8: for any filters, sort key and page size `k ∈ [1, 1000]`, the count
returned by `get_thumbnails` is the number of records matching the `WHERE`
clause for every page; the pages `1 .. ceil(total/k)` concatenate to exactly
the sorted matching records (a permutation of the matching records), and no
summary appears on two different pages. -/
theorem pagination_correctness (q : ThumbQuery) (k : Nat) (db : DB)
    (hk1 : 1 ≤ k) (hk2 : k ≤ 1000)
    (hnodup : (db.records.map DbRecord.id).Nodup) :
    (∀ page : Nat, (get_thumbnails q page k db).2
        = (db.records.filter (rowMatches q)).length)
    ∧ ((List.range (((db.records.filter (rowMatches q)).length + k - 1) / k)).map
          (fun i => (get_thumbnails q (i + 1) k db).1)).flatten
        = (sortByLe (sortLe q.sort) (db.records.filter (rowMatches q))).map summarize
    ∧ ((sortByLe (sortLe q.sort) (db.records.filter (rowMatches q))).map summarize).Perm
        ((db.records.filter (rowMatches q)).map summarize)
    ∧ (∀ i j : Nat, i < j →
        ((get_thumbnails q (i + 1) k db).1).Disjoint ((get_thumbnails q (j + 1) k db).1)) := by
  have hpage : ∀ i : Nat, (get_thumbnails q (i + 1) k db).1
      = ((((sortByLe (sortLe q.sort) (db.records.filter (rowMatches q))).map
          summarize).drop (i * k)).take k) := by
    intro i
    show ((((sortByLe (sortLe q.sort) (db.records.filter (rowMatches q))).drop
        ((i + 1 - 1) * k)).take k).map summarize) = _
    rw [Nat.add_sub_cancel, List.map_take, List.map_drop]
  have hlen : ((sortByLe (sortLe q.sort) (db.records.filter (rowMatches q))).map
      summarize).length = (db.records.filter (rowMatches q)).length := by
    rw [List.length_map]
    exact (sortByLe_perm _ _).length_eq
  refine ⟨fun page => rfl, ?_, (sortByLe_perm _ _).map _, ?_⟩
  · have hjc := join_chunks
      ((sortByLe (sortLe q.sort) (db.records.filter (rowMatches q))).map summarize) k
      (((db.records.filter (rowMatches q)).length + k - 1) / k)
    simp only [hpage]
    rw [hjc]
    apply List.take_of_length_le
    rw [hlen]
    exact le_ceil_mul _ k hk1
  · intro i j hij
    rw [hpage i, hpage j]
    have hL := sorted_summaries_nodup q db hnodup
    have hdisj := List.disjoint_take_drop (m := (i + 1) * k) (n := j * k) hL
      (Nat.mul_le_mul_right k hij)
    intro a hai haj
    apply hdisj ?_ (List.take_subset _ _ haj)
    have hta : (((sortByLe (sortLe q.sort) (db.records.filter (rowMatches q))).map
        summarize).take ((i + 1) * k))
        = (((sortByLe (sortLe q.sort) (db.records.filter (rowMatches q))).map
            summarize).take (i * k))
          ++ ((((sortByLe (sortLe q.sort) (db.records.filter (rowMatches q))).map
            summarize).drop (i * k)).take k) := by
      rw [Nat.succ_mul, List.take_add]
    rw [hta, List.mem_append]
    exact Or.inr hai

/-- Witness for `pagination_correctness`: the default query, page size 1, on
the one-row store `cexDb1`. -/
theorem pagination_correctness_witness :
    (1 ≤ 1 ∧ 1 ≤ 1000 ∧ (cexDb1.records.map DbRecord.id).Nodup)
    ∧ ((∀ page : Nat, (get_thumbnails {} page 1 cexDb1).2
          = (cexDb1.records.filter (rowMatches {})).length)
       ∧ ((List.range (((cexDb1.records.filter (rowMatches {})).length + 1 - 1) / 1)).map
            (fun i => (get_thumbnails {} (i + 1) 1 cexDb1).1)).flatten
          = (sortByLe (sortLe ({} : ThumbQuery).sort) (cexDb1.records.filter (rowMatches {}))).map
              summarize
       ∧ ((sortByLe (sortLe ({} : ThumbQuery).sort) (cexDb1.records.filter (rowMatches {}))).map
            summarize).Perm ((cexDb1.records.filter (rowMatches {})).map summarize)
       ∧ (∀ i j : Nat, i < j →
          ((get_thumbnails {} (i + 1) 1 cexDb1).1).Disjoint
            ((get_thumbnails {} (j + 1) 1 cexDb1).1))) :=
  ⟨⟨by decide, by decide, by decide⟩,
    pagination_correctness {} 1 cexDb1 (by decide) (by decide) (by decide)⟩
